import Mathlib

/-!
Verification of the trace-context derivation, storage and propagation
subsystem of the aws-tracing-test repository.

The embedding models the latest revision of `src/util/tracing-utils.ts`
(classes `TraceId` and `TracingContext`), the EventBridge extractor of
`lambda/tracing-test-lambda/index.ts` (`TraceId.fromEventBridgeEvent`)
and the SQS batch wrapper of `src/util/traced-sqs-handler.ts`.

Ambient runtime state read by the TypeScript code (process environment,
the X-Ray SDK segment, `Date.now()`, `crypto.randomBytes`, `ulid()`) is
modelled by an explicit `World` record passed to the functions.
JavaScript strings are Lean `String`s; a value of TypeScript type
`string | undefined` is an `Option String`.
-/

namespace Trace

/-- JavaScript truthiness filter for a `string | undefined` value:
returns the string when it is present and non-empty (truthy), `none`
otherwise.  Mirrors `if (x) ...` tests in the source. -/
def truthy? : Option String → Option String
  | some s => if s = "" then none else some s
  | none => none

/-- Lower-casing of one character (`String.prototype.toLowerCase` on
the ASCII range, which covers the header names involved). -/
def lowerChar (c : Char) : Char :=
  if c.isUpper then Char.ofNat (c.toNat + 32) else c

/-- Lower-casing of a string, character by character. -/
def toLowerAscii (s : String) : String :=
  (s.toList.map lowerChar).asString

/-- JavaScript `a || b` on `string | undefined` values: `b` when `a` is
falsy (absent or empty). -/
def jsOr (a b : Option String) : Option String :=
  match truthy? a with
  | some s => some s
  | none => b

/-- JavaScript `a ?? b` (nullish coalescing) on `string | undefined`
values: `b` only when `a` is absent; an empty string is kept. -/
def jsNullish (a b : Option String) : Option String :=
  match a with
  | some s => some s
  | none => b

/-- Character class `[0-9a-f]` under the `/i` flag of
`XRAY_TRACE_ID_REGEX` (upper-case hex digits also match). -/
def isHexDigit (c : Char) : Bool :=
  c.isDigit || (decide ('a' ≤ c) && decide (c ≤ 'f'))
    || (decide ('A' ≤ c) && decide (c ≤ 'F'))

/-- Take exactly `n` hex digits from the front of the character list,
returning the digits and the rest; `none` when fewer are available. -/
def takeHex : Nat → List Char → Option (List Char × List Char)
  | 0, rest => some ([], rest)
  | _ + 1, [] => none
  | n + 1, c :: rest =>
    if isHexDigit c then
      match takeHex n rest with
      | some (g, r) => some (c :: g, r)
      | none => none
    else none

/-- Match `1-<8 hex>-<24 hex>` at the head of the list (the mandatory
part of `XRAY_TRACE_ID_REGEX`); on success return the concatenation of
the two captured hex groups, as the source's
`` `${match[1]}${match[2]}` `` does. -/
def rootIdAt : List Char → Option String
  | '1' :: '-' :: rest =>
    (match takeHex 8 rest with
      | some (g1, '-' :: rest2) =>
        (match takeHex 24 rest2 with
          | some (g2, _) => some ((g1 ++ g2).asString)
          | none => none)
      | _ => none)
  | _ => none

/-- Leftmost-match search for `XRAY_TRACE_ID_REGEX`
(`/(?:Root=)?1-([0-9a-f]{8})-([0-9a-f]{24})/i`).  The optional `Root=`
prefix never changes the captured groups, so searching for the mandatory
part at every position yields the same result as the JavaScript
regular-expression engine. -/
def findRootId : List Char → Option String
  | [] => none
  | c :: rest =>
    match rootIdAt (c :: rest) with
    | some s => some s
    | none => findRootId rest

/-- Embedding of `TraceId.extractRootTraceId` (identical in every
revision): falsy input yields no match; otherwise search the string for
the X-Ray trace-id pattern and join the two hex groups. -/
def extractRootTraceId (traceValue : Option String) : Option String :=
  match truthy? traceValue with
  | none => none
  | some s => findRootId s.toList

/-- Match `Sampled=` followed by a digit (`/Sampled=(\d)/`) at the head
of the list, returning the captured digit. -/
def sampledAt : List Char → Option Char
  | 'S' :: 'a' :: 'm' :: 'p' :: 'l' :: 'e' :: 'd' :: '=' :: d :: _ =>
    if d.isDigit then some d else none
  | _ => none

/-- Leftmost-match search for `/Sampled=(\d)/`. -/
def findSampledDigit : List Char → Option Char
  | [] => none
  | c :: rest =>
    match sampledAt (c :: rest) with
    | some d => some d
    | none => findSampledDigit rest

/-- Character class `[\w-]` of the `Parent=` regular expression. -/
def isWordDash (c : Char) : Bool :=
  c.isAlpha || c.isDigit || c == '_' || c == '-'

/-- Match `Parent=` followed by a greedy run of `[\w-]+` at the head of
the list, returning the captured run. -/
def parentAt : List Char → Option String
  | 'P' :: 'a' :: 'r' :: 'e' :: 'n' :: 't' :: '=' :: d :: rest =>
    if isWordDash d then some ((d :: rest.takeWhile isWordDash).asString)
    else none
  | _ => none

/-- Leftmost-match search for `/Parent=([\w-]+)/`. -/
def findParentValue : List Char → Option String
  | [] => none
  | c :: rest =>
    match parentAt (c :: rest) with
    | some s => some s
    | none => findParentValue rest

/-- Partial view of an X-Ray SDK segment (`XRaySegmentPartial` plus the
`id` field read by `getSpanIdFromXRay`). -/
structure Segment where
  trace_id : Option String := none
  id : Option String := none
deriving DecidableEq

/-- Ambient runtime state read by the TypeScript code. -/
structure World where
  /-- process.env._X_AMZN_TRACE_ID -/
  envUpper : Option String := none
  /-- process.env._x_amzn_trace_id (the lower-case fallback lookup) -/
  envLower : Option String := none
  /-- TracingContext.getXRayEnv(): the xrayEnv field of the ambient
  store, if a tracing scope is active at the call -/
  contextEnv : Option String := none
  /-- AWSXRay.getSegment(): `none` covers both an absent segment and the
  SDK throwing (the source catches and returns undefined) -/
  segment : Option Segment := none
  /-- Date.now() in milliseconds -/
  nowMs : Nat := 0
  /-- crypto.randomBytes(12), one Nat per byte -/
  randomBytes : List Nat := []
  /-- the value produced by ulid() in the lambda's TraceId.generate -/
  ulidValue : String := ""
deriving DecidableEq

/-- Left-pad a character list to length `n` with `c`
(JavaScript `String.prototype.padStart`). -/
def padLeft (l : List Char) (n : Nat) (c : Char) : List Char :=
  List.replicate (n - l.length) c ++ l

/-- Lower-case hex digits of a number
(JavaScript `Number.prototype.toString(16)` for naturals). -/
def natToHexDigits (n : Nat) : List Char :=
  Nat.toDigits 16 n

/-- Hex rendering of a byte buffer
(`Buffer.prototype.toString("hex")`): two lower-case digits per byte. -/
def bytesToHex (bs : List Nat) : List Char :=
  (bs.map (fun b => padLeft (natToHexDigits (b % 256)) 2 '0')).flatten

namespace TracingUtils

/-- `TraceId.TRACE_ID_HEADER` of src/util/tracing-utils.ts. -/
def TRACE_ID_HEADER : String := "X-Trace-Id"

/-- `TraceId.getXRayEnv`: `process.env[VAR] || process.env[var]`. -/
def getXRayEnv (w : World) : Option String :=
  jsOr w.envUpper w.envLower

/-- `TraceId.generate`: hex epoch seconds padded to 8 characters,
followed by 24 hex characters from 12 random bytes. -/
def generate (nowMs : Nat) (randomBytes : List Nat) : String :=
  (padLeft (natToHexDigits (nowMs / 1000)) 8 '0'
    ++ bytesToHex randomBytes).asString

/-- Loop body of `TraceId.getHeader`: first key whose lower-casing
equals the (already lower-cased) target, returning its value. -/
def headerLookup : List (String × Option String) → String → Option String
  | [], _ => none
  | kv :: rest, target =>
    if toLowerAscii kv.1 = target then kv.2 else headerLookup rest target

/-- `TraceId.getHeader`: case-insensitive lookup of a header name in the
request headers map (an insertion-ordered key/value list whose values
may be undefined). -/
def getHeader (headers : List (String × Option String))
    (headerName : String) : Option String :=
  headerLookup headers (toLowerAscii headerName)

/-- `TraceId.getRootTraceIdFromEnvironment`. -/
def getRootTraceIdFromEnvironment (w : World) : Option String :=
  extractRootTraceId (getXRayEnv w)

/-- `TraceId.getRootTraceIdFromSegment`. -/
def getRootTraceIdFromSegment (segment : Option Segment) : Option String :=
  extractRootTraceId (segment.bind (fun s => s.trace_id))

/-- Result shape of `TraceId.getXRayTracingAvailability`. -/
structure XRayAvailability where
  isTracingEnabled : Bool
  envVar : Option String := none
deriving DecidableEq

/-- `TraceId.getXRayTracingAvailability`: prefer the ambient store's
xrayEnv (`??`), fall back to the process environment; report tracing as
enabled only when the value is truthy, carries `Sampled=1` and embeds a
valid root trace id. -/
def getXRayTracingAvailability (w : World) : XRayAvailability :=
  let xrayEnv := jsNullish w.contextEnv (getXRayEnv w)
  match truthy? xrayEnv with
  | none => { isTracingEnabled := false }
  | some env =>
    let isSampled := findSampledDigit env.toList == some '1'
    let hasRoot := (extractRootTraceId (some env)).isSome
    { isTracingEnabled := isSampled && hasRoot, envVar := some env }

/-- `TraceId.getSpanIdFromXRay`: the `Parent=` value of a truthy X-Ray
env string, else the segment's `id` when it is a string. -/
def getSpanIdFromXRay (xrayEnv : Option String)
    (segment : Option Segment) : Option String :=
  let fromEnv :=
    match truthy? xrayEnv with
    | some env => findParentValue env.toList
    | none => none
  match fromEnv with
  | some p => some p
  | none => segment.bind (fun s => s.id)

/-- The `TraceContext` value type of src/util/tracing-utils.ts. -/
structure TraceContext where
  traceId : String
  spanId : Option String := none
  xrayEnv : Option String := none
deriving DecidableEq

/-- Input shape of `TraceId.fromAPIGatewayEvent`:
`{ headers?: { [key: string]: string | undefined } }`. -/
structure APIGatewayEventInput where
  headers : Option (List (String × Option String)) := none
deriving DecidableEq

/-- The optional `detail` object of a `TracedEvent`. -/
structure TracedDetail where
  traceId : Option String := none
deriving DecidableEq

/-- The `TracedEvent` shape of src/util/tracing-utils.ts (restricted to
the fields the extractor reads). -/
structure TracedEvent where
  traceId : Option String := none
  detail : Option TracedDetail := none
deriving DecidableEq

/-- `TraceId.fromAPIGatewayEvent` (latest revision): explicit
`X-Trace-Id` header first; the X-Ray environment and segment candidates
only when `getXRayTracingAvailability` reports tracing enabled;
generation as the final fallback. -/
def fromAPIGatewayEvent (w : World) (event : APIGatewayEventInput) :
    TraceContext :=
  let headers := event.headers.getD []
  let avail := getXRayTracingAvailability w
  let xrayEnv := avail.envVar
  let spanId := getSpanIdFromXRay xrayEnv w.segment
  match truthy? (getHeader headers TRACE_ID_HEADER) with
  | some explicitTraceId =>
    { traceId := explicitTraceId, spanId := spanId, xrayEnv := xrayEnv }
  | none =>
    if avail.isTracingEnabled then
      match truthy? (extractRootTraceId xrayEnv) with
      | some t => { traceId := t, spanId := spanId, xrayEnv := xrayEnv }
      | none =>
        match truthy? (getRootTraceIdFromSegment w.segment) with
        | some t => { traceId := t, spanId := spanId, xrayEnv := xrayEnv }
        | none =>
          { traceId := generate w.nowMs w.randomBytes
            spanId := spanId, xrayEnv := xrayEnv }
    else
      { traceId := generate w.nowMs w.randomBytes
        spanId := spanId, xrayEnv := xrayEnv }

/-- `TraceId.fromTracedEvent` (latest revision): top-level `traceId`,
then `detail.traceId`, then — only when tracing is enabled — the X-Ray
environment and segment, then generation. -/
def fromTracedEvent (w : World) (tracedEvent : TracedEvent) :
    TraceContext :=
  let xrayEnv := getXRayEnv w
  let spanId := getSpanIdFromXRay xrayEnv w.segment
  match truthy? tracedEvent.traceId with
  | some t => { traceId := t, spanId := spanId, xrayEnv := xrayEnv }
  | none =>
    match truthy? (tracedEvent.detail.bind (fun d => d.traceId)) with
    | some t => { traceId := t, spanId := spanId, xrayEnv := xrayEnv }
    | none =>
      let avail := getXRayTracingAvailability w
      if avail.isTracingEnabled then
        match truthy? (getRootTraceIdFromEnvironment w) with
        | some t => { traceId := t, spanId := spanId, xrayEnv := xrayEnv }
        | none =>
          match truthy? (getRootTraceIdFromSegment w.segment) with
          | some t =>
            { traceId := t, spanId := spanId, xrayEnv := xrayEnv }
          | none =>
            { traceId := generate w.nowMs w.randomBytes
              spanId := spanId, xrayEnv := xrayEnv }
      else
        { traceId := generate w.nowMs w.randomBytes
          spanId := spanId, xrayEnv := xrayEnv }

end TracingUtils

/-- Ambient store held by `TracingContext`'s `AsyncLocalStorage`.  Each
field is `none` when the object lacks the key or holds `undefined`
(indistinguishable to every reader in the source). -/
structure Store where
  traceId : Option String := none
  spanId : Option String := none
  xrayEnv : Option String := none
deriving DecidableEq

/-- Context argument passed to `TracingContext.withTraceContext`.  For
the optional fields, `none` models a key that is absent from the object
literal, while `some v` models a present key holding `v` (possibly
`undefined`); object spread treats the two differently. -/
structure CtxArg where
  traceId : String
  spanId : Option (Option String) := none
  xrayEnv : Option (Option String) := none
deriving DecidableEq

/-- Computations running under `AsyncLocalStorage`: a reader of the
ambient store (`none` = no active scope) that either returns a value or
throws/rejects with an error of type `ε`.  `AsyncLocalStorage.run`
restores the previous store once the callback settles, which is exactly
the scoping a reader gives. -/
def TracedM (ε α : Type) : Type := Option Store → Except ε α

/-- Sequencing of traced computations (`await` chaining): an error short
circuits, a success feeds the continuation under the same store. -/
def bindT {ε α β : Type} (x : TracedM ε α) (f : α → TracedM ε β) :
    TracedM ε β :=
  fun s =>
    match x s with
    | Except.ok a => f a s
    | Except.error e => Except.error e

/-- A pure traced computation. -/
def pureT {ε α : Type} (a : α) : TracedM ε α := fun _ => Except.ok a

/-- JavaScript `try`/`catch` around a traced computation: the handler
runs under the store of the surrounding scope. -/
def tryCatchT {ε α : Type} (x : TracedM ε α) (h : ε → TracedM ε α) :
    TracedM ε α :=
  fun s =>
    match x s with
    | Except.ok a => Except.ok a
    | Except.error e => h e s

namespace TracingContext

/-- `TracingContext.getStore` (via `als.getStore()`). -/
def getStore {ε : Type} : TracedM ε (Option Store) :=
  fun s => Except.ok s

/-- `TracingContext.getTraceId`: `getStore()?.traceId || ""`. -/
def getTraceId {ε : Type} : TracedM ε String :=
  fun s =>
    Except.ok
      (match s with
        | some st => st.traceId.getD ""
        | none => "")

/-- `TracingContext.getXRayEnv`: `getStore()?.xrayEnv`. -/
def getXRayEnv {ε : Type} : TracedM ε (Option String) :=
  fun s => Except.ok (s.bind (fun st => st.xrayEnv))

/-- Object spread `{...current, ...ctx}` of `withTraceContext`: keys of
`ctx` overwrite, keys absent from `ctx` are kept from `current`. -/
def mergeCtx (current : Store) (ctx : CtxArg) : Store :=
  { traceId := some ctx.traceId
    spanId :=
      match ctx.spanId with
      | some v => v
      | none => current.spanId
    xrayEnv :=
      match ctx.xrayEnv with
      | some v => v
      | none => current.xrayEnv }

/-- `TracingContext.withTraceContext`: merge the current store (or `{}`)
with the new context and run the callback with the merged object as the
ambient store; the caller's store is untouched (reader scoping). -/
def withTraceContext {ε α : Type} (ctx : CtxArg) (fn : TracedM ε α) :
    TracedM ε α :=
  fun s => fn (some (mergeCtx (s.getD {}) ctx))

end TracingContext

/-- Dynamic JSON-like values handled by the lambda's
`TraceId.fromEventBridgeEvent` (numbers restricted to integers, which
covers every identifier shape the extractor normalizes). -/
inductive JVal where
  | jnull : JVal
  | jbool : Bool → JVal
  | jnum : Int → JVal
  | jstr : String → JVal
  | jarr : List JVal → JVal
  | jobj : List (String × JVal) → JVal

/-- JavaScript property read `obj[k]` on a record (first binding of the
key; `undefined` when absent). -/
def getProp : List (String × JVal) → String → Option JVal
  | [], _ => none
  | kv :: rest, k => if kv.1 = k then some kv.2 else getProp rest k

namespace LambdaTraceId

/-- `TraceId.generate` of the lambda module: `ulid()`. -/
def generate (w : World) : String := w.ulidValue

/-- `TraceId.asRecord`: plain objects pass through as key/value lists,
everything else (null, arrays, primitives) becomes the empty record. -/
def asRecord : JVal → List (String × JVal)
  | JVal.jobj fields => fields
  | _ => []

/-- `asRecord` applied to a possibly-absent value. -/
def asRecordOpt : Option JVal → List (String × JVal)
  | some v => asRecord v
  | none => []

/-- `TraceId.parseDetail`: a string detail is handed to `JSON.parse`
(modelled by the oracle `p`, `none` meaning the parser threw); a parse
failure is caught and becomes the empty record; any other value goes
through `asRecord`. -/
def parseDetail (p : String → Option JVal) (detail : Option JVal) :
    List (String × JVal) :=
  match detail with
  | some (JVal.jstr s) =>
    (match p s with
      | some v => asRecord v
      | none => [])
  | some v => asRecord v
  | none => []

/-- `TraceId.normalizeTraceId`: strings pass through, numbers are
stringified, anything else is rejected. -/
def normalizeTraceId : Option JVal → Option String
  | some (JVal.jstr s) => some s
  | some (JVal.jnum n) => some (toString n)
  | _ => none

/-- First truthy normalized candidate of the explicit trace-id loop. -/
def firstNormalized : List (Option JVal) → Option String
  | [] => none
  | c :: rest =>
    match truthy? (normalizeTraceId c) with
    | some s => some s
    | none => firstNormalized rest

/-- First candidate of the `traceHeader` loop whose normalized value
embeds a valid root trace id. -/
def firstHeaderRoot : List (Option JVal) → Option String
  | [] => none
  | c :: rest =>
    match truthy? (extractRootTraceId (normalizeTraceId c)) with
    | some s => some s
    | none => firstHeaderRoot rest

/-- `TraceId.getRootTraceIdFromEnvironment` of the lambda module
(nullish coalescing between the two environment spellings). -/
def getRootTraceIdFromEnvironment (w : World) : Option String :=
  extractRootTraceId (jsNullish w.envUpper w.envLower)

/-- `TraceId.getRootTraceIdFromSegment` of the lambda module. -/
def getRootTraceIdFromSegment (segment : Option Segment) : Option String :=
  extractRootTraceId (segment.bind (fun s => s.trace_id))

/-- `TraceId.getStepFunctionExecutionId`: the normalized `id` field of a
nested `event` record. -/
def getStepFunctionExecutionId (source _detail _metadata :
    List (String × JVal)) : Option String :=
  normalizeTraceId (getProp (asRecordOpt (getProp source "event")) "id")

/-- `TraceId.fromEventBridgeEvent` of
lambda/tracing-test-lambda/index.ts: explicit `traceId` fields, then
`traceHeader` fields, then the X-Ray environment and segment, then the
Step Functions execution id, then generation. -/
def fromEventBridgeEvent (p : String → Option JVal) (w : World)
    (event : JVal) : String :=
  let eventRecord := asRecord event
  let detail := parseDetail p (getProp eventRecord "detail")
  let metadata := asRecordOpt (getProp detail "metadata")
  match firstNormalized [getProp eventRecord "traceId",
      getProp detail "traceId", getProp metadata "traceId"] with
  | some t => t
  | none =>
    match firstHeaderRoot [getProp eventRecord "traceHeader",
        getProp detail "traceHeader", getProp metadata "traceHeader"] with
    | some t => t
    | none =>
      match truthy? (getRootTraceIdFromEnvironment w) with
      | some t => t
      | none =>
        match truthy? (getRootTraceIdFromSegment w.segment) with
        | some t => t
        | none =>
          match truthy?
              (getStepFunctionExecutionId eventRecord detail metadata) with
          | some t => t
          | none => generate w

end LambdaTraceId

/-- Payload shape read by `standardTracedEventExtractor`: a traced event
possibly wrapped one level under an `event` key (Step Functions
wrappers). -/
structure IncomingEvent where
  traceId : Option String := none
  detail : Option TracingUtils.TracedDetail := none
  event : Option TracingUtils.TracedEvent := none
deriving DecidableEq

/-- `standardTracedEventExtractor` of src/util/xray-utils.ts: keep the
payload when it carries `traceId` or `detail.traceId`; otherwise unwrap
a nested `event` object when that one carries them; otherwise keep the
payload. -/
def standardTracedEventExtractor (e : IncomingEvent) :
    TracingUtils.TracedEvent :=
  if (truthy? e.traceId).isSome
      || (truthy? (e.detail.bind (fun d => d.traceId))).isSome then
    { traceId := e.traceId, detail := e.detail }
  else
    match e.event with
    | some wrapped =>
      if (truthy? wrapped.traceId).isSome
          || (truthy? (wrapped.detail.bind (fun d => d.traceId))).isSome then
        wrapped
      else { traceId := e.traceId, detail := e.detail }
    | none => { traceId := e.traceId, detail := e.detail }

/-- An SQS record as read by the wrapper: its message id, its message
attributes (attribute name to `stringValue`) and its raw body. -/
structure SQSRecord where
  messageId : String
  messageAttributes : List (String × Option String) := []
  body : String := ""
deriving DecidableEq

/-- Property read `messageAttributes?.[k]?.stringValue`. -/
def lookupAttr : List (String × Option String) → String → Option String
  | [], _ => none
  | kv :: rest, k => if kv.1 = k then kv.2 else lookupAttr rest k

/-- An SQS batch event. -/
structure SQSEvent where
  Records : List SQSRecord
deriving DecidableEq

/-- Partial-batch response: the `itemIdentifier` values of the
`batchItemFailures` entries. -/
structure SQSBatchResponse where
  batchItemFailures : List String
deriving DecidableEq

namespace SqsHandler

/-- `defaultExtractTraceId` of src/util/traced-sqs-handler.ts: the
`trace-id` message attribute when truthy; otherwise parse the body
(oracle `q`, `none` meaning `JSON.parse` threw), run it through
`standardTracedEventExtractor` and `fromTracedEvent`; a parse failure is
caught and answered with a generated id. -/
def defaultExtractTraceId (q : String → Option IncomingEvent) (w : World)
    (record : SQSRecord) : String :=
  match truthy? (lookupAttr record.messageAttributes "trace-id") with
  | some t => t
  | none =>
    match q record.body with
    | some parsed =>
      (TracingUtils.fromTracedEvent w
        (standardTracedEventExtractor parsed)).traceId
    | none => TracingUtils.generate w.nowMs w.randomBytes

/-- Body of `processRecord` inside `tracedSqsHandler`: derive the
record's trace id (`extract(record) ?? TraceId.generate()`) and run the
handler inside its own tracing scope, under the ambient store `s` the
wrapper was invoked with. -/
def processRecord {ε α : Type} (w : World)
    (extract : SQSRecord → Option String)
    (handler : SQSRecord → TracedM ε α) (s : Option Store)
    (record : SQSRecord) : Except ε α :=
  let traceId := (extract record).getD
    (TracingUtils.generate w.nowMs w.randomBytes)
  TracingContext.withTraceContext { traceId := traceId } (handler record) s

/-- Sequential record loop of `tracedSqsHandler` (the default,
non-parallel mode): a record whose handler throws contributes its
message id to the `failed` list and processing continues. -/
def runRecords {ε α : Type} (w : World)
    (extract : SQSRecord → Option String)
    (handler : SQSRecord → TracedM ε α) (s : Option Store) :
    List SQSRecord → List String
  | [] => []
  | record :: rest =>
    match processRecord w extract handler s record with
    | Except.ok _ => runRecords w extract handler s rest
    | Except.error _ =>
      record.messageId :: runRecords w extract handler s rest

/-- `tracedSqsHandler`: process every record and return the partial
batch response listing the failed message ids (empty when all records
succeeded). -/
def tracedSqsHandler {ε α : Type} (w : World)
    (extract : SQSRecord → Option String)
    (handler : SQSRecord → TracedM ε α) (s : Option Store)
    (event : SQSEvent) : SQSBatchResponse :=
  { batchItemFailures := runRecords w extract handler s event.Records }

/-- Whether one record's own processing fails (its handler throws inside
its tracing scope). -/
def recordFails {ε α : Type} (w : World)
    (extract : SQSRecord → Option String)
    (handler : SQSRecord → TracedM ε α) (s : Option Store)
    (record : SQSRecord) : Bool :=
  match processRecord w extract handler s record with
  | Except.ok _ => false
  | Except.error _ => true

end SqsHandler

/-! Helper lemmas shared by the claim theorems. -/

theorem truthy?_eq_some {o : Option String} {t : String}
    (h : truthy? o = some t) : o = some t ∧ t ≠ "" := by
  cases o with
  | none => simp [truthy?] at h
  | some s =>
    by_cases hs : s = ""
    · simp [truthy?, hs] at h
    · simp [truthy?, hs] at h
      subst h
      exact ⟨rfl, hs⟩

theorem truthy?_some_of_ne {t : String} (h : t ≠ "") :
    truthy? (some t) = some t := by
  simp [truthy?, h]

theorem generate_ne_empty (n : Nat) (bs : List Nat) :
    TracingUtils.generate n bs ≠ "" := by
  intro h
  have h2 : (padLeft (natToHexDigits (n / 1000)) 8 '0'
      ++ bytesToHex bs).length = 0 := congrArg String.length h
  rw [List.length_append, padLeft, List.length_append,
    List.length_replicate] at h2
  omega

/-! Claim theorems. -/

/-- C1: for every input event, `TraceId.fromAPIGatewayEvent` and
`TraceId.fromTracedEvent` return a `TraceContext` whose `traceId` is a
non-empty string: every candidate source is accepted only when truthy
(non-empty), and when none matches a freshly generated id — itself never
empty — is returned, so derivation never fails to produce a trace id. -/
theorem c1_traceId_always_set (w : World) (ev : TracingUtils.APIGatewayEventInput)
    (te : TracingUtils.TracedEvent) :
    (TracingUtils.fromAPIGatewayEvent w ev).traceId ≠ ""
    ∧ (TracingUtils.fromTracedEvent w te).traceId ≠ "" := by
  constructor
  · simp only [TracingUtils.fromAPIGatewayEvent]
    split
    case h_1 t heq => exact (truthy?_eq_some heq).2
    case h_2 =>
      split
      · split
        case h_1 t heq => exact (truthy?_eq_some heq).2
        case h_2 =>
          split
          case h_1 t heq => exact (truthy?_eq_some heq).2
          case h_2 => exact generate_ne_empty w.nowMs w.randomBytes
      · exact generate_ne_empty w.nowMs w.randomBytes
  · simp only [TracingUtils.fromTracedEvent]
    split
    case h_1 t heq => exact (truthy?_eq_some heq).2
    case h_2 =>
      split
      case h_1 t heq => exact (truthy?_eq_some heq).2
      case h_2 =>
        split
        · split
          case h_1 t heq => exact (truthy?_eq_some heq).2
          case h_2 =>
            split
            case h_1 t heq => exact (truthy?_eq_some heq).2
            case h_2 => exact generate_ne_empty w.nowMs w.randomBytes
        · exact generate_ne_empty w.nowMs w.randomBytes

/-- C2: a non-empty dedicated trace-id header (looked up
case-insensitively by `getHeader`) is always returned as the trace id by
`fromAPIGatewayEvent`, for every world — in particular even when the
X-Ray environment value is present, well-formed and sampled. -/
theorem c2_header_precedence (w : World)
    (ev : TracingUtils.APIGatewayEventInput) (v : String)
    (hget : TracingUtils.getHeader (ev.headers.getD [])
      TracingUtils.TRACE_ID_HEADER = some v)
    (hne : v ≠ "") :
    (TracingUtils.fromAPIGatewayEvent w ev).traceId = v := by
  simp only [TracingUtils.fromAPIGatewayEvent]
  rw [hget, truthy?_some_of_ne hne]

/-- C2 witness: a mixed-case `x-TRACE-id` header wins over a present,
well-formed, sampled X-Ray environment value. -/
theorem c2_header_precedence_witness :
    (TracingUtils.fromAPIGatewayEvent
      { envUpper := some "Root=1-0123abef-0123456789abcdef01234567;Sampled=1" }
      { headers := some [("x-TRACE-id", some "abc123")] }).traceId
      = "abc123" :=
  c2_header_precedence _ _ "abc123" (by decide) (by decide)

/-- C3: `fromTracedEvent` prefers a (truthy) top-level `traceId` over
one nested under `detail`, and uses the nested one when the top-level
field is absent. -/
theorem c3_event_field_precedence (w : World) (x y : String)
    (hx : x ≠ "") (hy : y ≠ "") :
    (TracingUtils.fromTracedEvent w
      { traceId := some x, detail := some { traceId := some y } }).traceId = x
    ∧ (TracingUtils.fromTracedEvent w
      { traceId := none, detail := some { traceId := some y } }).traceId = y := by
  constructor
  · simp [TracingUtils.fromTracedEvent, truthy?, hx]
  · simp [TracingUtils.fromTracedEvent, truthy?, hy]

/-- C3 witness: the P3 scenario with `traceId = "X"` and
`detail.traceId = "Y"`. -/
theorem c3_event_field_precedence_witness :
    (TracingUtils.fromTracedEvent {}
      { traceId := some "X", detail := some { traceId := some "Y" } }).traceId = "X"
    ∧ (TracingUtils.fromTracedEvent {}
      { traceId := none, detail := some { traceId := some "Y" } }).traceId = "Y" :=
  c3_event_field_precedence {} "X" "Y" (by decide) (by decide)

/-- C4: `getXRayTracingAvailability` reports tracing enabled exactly
when the (truthy) X-Ray environment value carries `Sampled=1` and a
valid root id — not merely when it is present; and when that test fails,
both extractors skip the environment and segment candidates and fall
through to generation (given that no explicit candidate matched). -/
theorem c4_sampling_gate (w : World) (ev : TracingUtils.APIGatewayEventInput)
    (te : TracingUtils.TracedEvent)
    (hhdr : truthy? (TracingUtils.getHeader (ev.headers.getD [])
      TracingUtils.TRACE_ID_HEADER) = none)
    (h1 : truthy? te.traceId = none)
    (h2 : truthy? (te.detail.bind (fun d => d.traceId)) = none)
    (hoff : (TracingUtils.getXRayTracingAvailability w).isTracingEnabled
      = false) :
    (TracingUtils.fromAPIGatewayEvent w ev).traceId
      = TracingUtils.generate w.nowMs w.randomBytes
    ∧ (TracingUtils.fromTracedEvent w te).traceId
      = TracingUtils.generate w.nowMs w.randomBytes
    ∧ (∀ v : World,
        (TracingUtils.getXRayTracingAvailability v).isTracingEnabled = true
        ↔ ∃ env, truthy? (jsNullish v.contextEnv (TracingUtils.getXRayEnv v))
            = some env
          ∧ findSampledDigit env.toList = some '1'
          ∧ (extractRootTraceId (some env)).isSome = true) := by
  refine ⟨?_, ?_, ?_⟩
  · simp [TracingUtils.fromAPIGatewayEvent, hhdr, hoff]
  · simp [TracingUtils.fromTracedEvent, h1, h2, hoff]
  · intro v
    cases henv : truthy? (jsNullish v.contextEnv (TracingUtils.getXRayEnv v)) with
    | none => simp [TracingUtils.getXRayTracingAvailability, henv]
    | some env =>
      simp [TracingUtils.getXRayTracingAvailability, henv,
        Bool.and_eq_true, beq_iff_eq]

/-- C4 witness: an environment value that is present and embeds a valid
root id but carries `Sampled=0` is not trusted — both extractors
generate instead. -/
theorem c4_sampling_gate_witness :
    (TracingUtils.fromAPIGatewayEvent
      { envUpper := some "Root=1-0123abef-0123456789abcdef01234567;Sampled=0",
        nowMs := 1700000000000, randomBytes := [0] }
      { headers := none }).traceId
      = TracingUtils.generate 1700000000000 [0]
    ∧ (TracingUtils.fromTracedEvent
      { envUpper := some "Root=1-0123abef-0123456789abcdef01234567;Sampled=0",
        nowMs := 1700000000000, randomBytes := [0] } {}).traceId
      = TracingUtils.generate 1700000000000 [0] := by
  have h := c4_sampling_gate
    { envUpper := some "Root=1-0123abef-0123456789abcdef01234567;Sampled=0",
      nowMs := 1700000000000, randomBytes := [0] }
    { headers := none } {} (by decide) (by decide) (by decide) (by decide)
  exact ⟨h.1, h.2.1⟩

/-- C5: in `fromEventBridgeEvent`, when no explicit trace-id candidate,
no `traceHeader` candidate and neither X-Ray source matches, the
normalized `event.id` execution identifier is the last candidate: the
result is that identifier when it is truthy, and the generated id only
otherwise. -/
theorem c5_execution_id_fallback (p : String → Option JVal) (w : World)
    (fields : List (String × JVal))
    (hexp : LambdaTraceId.firstNormalized [getProp fields "traceId",
      getProp (LambdaTraceId.parseDetail p (getProp fields "detail"))
        "traceId",
      getProp (LambdaTraceId.asRecordOpt
        (getProp (LambdaTraceId.parseDetail p (getProp fields "detail"))
          "metadata")) "traceId"] = none)
    (hhdr : LambdaTraceId.firstHeaderRoot [getProp fields "traceHeader",
      getProp (LambdaTraceId.parseDetail p (getProp fields "detail"))
        "traceHeader",
      getProp (LambdaTraceId.asRecordOpt
        (getProp (LambdaTraceId.parseDetail p (getProp fields "detail"))
          "metadata")) "traceHeader"] = none)
    (henv : truthy? (LambdaTraceId.getRootTraceIdFromEnvironment w) = none)
    (hseg : truthy? (LambdaTraceId.getRootTraceIdFromSegment w.segment)
      = none) :
    LambdaTraceId.fromEventBridgeEvent p w (JVal.jobj fields)
      = (match truthy? (LambdaTraceId.getStepFunctionExecutionId fields
            (LambdaTraceId.parseDetail p (getProp fields "detail"))
            (LambdaTraceId.asRecordOpt
              (getProp (LambdaTraceId.parseDetail p (getProp fields "detail"))
                "metadata"))) with
          | some e => e
          | none => LambdaTraceId.generate w) := by
  simp only [LambdaTraceId.fromEventBridgeEvent, LambdaTraceId.asRecord]
  rw [hexp, hhdr, henv, hseg]

/-- C5 witness: an event whose only trace-relevant content is a nested
`event.id` yields exactly that identifier, not a generated one. -/
theorem c5_execution_id_fallback_witness :
    LambdaTraceId.fromEventBridgeEvent (fun _ => none)
      { ulidValue := "GENERATED" }
      (JVal.jobj [("event", JVal.jobj [("id", JVal.jstr "exec-1")])])
      = "exec-1" := by
  rw [c5_execution_id_fallback (fun _ => none) { ulidValue := "GENERATED" }
    [("event", JVal.jobj [("id", JVal.jstr "exec-1")])]
    (by decide) (by decide) (by decide) (by decide)]
  decide

/-- C6: a string `detail` that the JSON parser rejects is treated as an
absent candidate — `fromEventBridgeEvent` behaves exactly as it does
without the detail field and the cascade continues — and in the SQS
per-record path an unparseable body (with no truthy `trace-id` message
attribute) yields a freshly generated id. -/
theorem c6_malformed_detail_resilience (p : String → Option JVal)
    (q : String → Option IncomingEvent) (w : World) (s : String)
    (fields : List (String × JVal)) (r : SQSRecord)
    (hp : p s = none)
    (hfields : getProp fields "detail" = none)
    (hattr : truthy? (lookupAttr r.messageAttributes "trace-id") = none)
    (hq : q r.body = none) :
    LambdaTraceId.fromEventBridgeEvent p w
        (JVal.jobj (("detail", JVal.jstr s) :: fields))
      = LambdaTraceId.fromEventBridgeEvent p w (JVal.jobj fields)
    ∧ SqsHandler.defaultExtractTraceId q w r
      = TracingUtils.generate w.nowMs w.randomBytes := by
  constructor
  · have ed : LambdaTraceId.parseDetail p
        (getProp (("detail", JVal.jstr s) :: fields) "detail") = [] := by
      simp [getProp, LambdaTraceId.parseDetail, hp]
    have ed2 : LambdaTraceId.parseDetail p (getProp fields "detail")
        = [] := by
      simp [hfields, LambdaTraceId.parseDetail]
    simp only [LambdaTraceId.fromEventBridgeEvent, LambdaTraceId.asRecord,
      ed, ed2]
    simp [getProp, LambdaTraceId.getStepFunctionExecutionId,
      LambdaTraceId.asRecordOpt]
  · simp [SqsHandler.defaultExtractTraceId, hattr, hq]

/-- C6 witness: a concrete malformed detail string and a concrete SQS
record whose body the parser rejects. -/
theorem c6_malformed_detail_resilience_witness :
    LambdaTraceId.fromEventBridgeEvent (fun _ => none) { ulidValue := "G" }
        (JVal.jobj [("detail", JVal.jstr "not valid json"),
          ("event", JVal.jobj [("id", JVal.jstr "exec-1")])])
      = LambdaTraceId.fromEventBridgeEvent (fun _ => none) { ulidValue := "G" }
        (JVal.jobj [("event", JVal.jobj [("id", JVal.jstr "exec-1")])])
    ∧ SqsHandler.defaultExtractTraceId (fun _ => none)
        { nowMs := 1700000000000, randomBytes := [0] }
        { messageId := "m1", body := "not valid json" }
      = TracingUtils.generate 1700000000000 [0] :=
  c6_malformed_detail_resilience (fun _ => none) (fun _ => none)
    { nowMs := 1700000000000, randomBytes := [0] } "not valid json"
    [("event", JVal.jobj [("id", JVal.jstr "exec-1")])]
    { messageId := "m1", body := "not valid json" }
    rfl rfl (by decide) rfl

/-- C7: nested `withTraceContext` scopes: the inner callback observes
the store merged with `ctxB` (whose `traceId` is `ctxB`'s), and a read
sequenced after the inner scope but still inside the outer one observes
the outer scope's store again (whose `traceId` is `ctxA`'s). -/
theorem c7_nesting_restore (ε : Type) (s : Option Store)
    (ctxA ctxB : CtxArg) :
    TracingContext.withTraceContext (ε := ε) ctxA
        (bindT (TracingContext.withTraceContext ctxB TracingContext.getStore)
          (fun inner => bindT TracingContext.getStore
            (fun outer => pureT (inner, outer)))) s
      = Except.ok
          (some (TracingContext.mergeCtx
            (TracingContext.mergeCtx (s.getD {}) ctxA) ctxB),
            some (TracingContext.mergeCtx (s.getD {}) ctxA))
    ∧ (TracingContext.mergeCtx
        (TracingContext.mergeCtx (s.getD {}) ctxA) ctxB).traceId
        = some ctxB.traceId
    ∧ (TracingContext.mergeCtx (s.getD {}) ctxA).traceId
        = some ctxA.traceId :=
  ⟨rfl, rfl, rfl⟩

/-- C8: when the callback of `withTraceContext` throws, the error
reaches the caller unchanged, and a catch handler in the surrounding
scope observes the prior ambient store (possibly absent) again. -/
theorem c8_error_propagation (ε α : Type) (s : Option Store) (ctx : CtxArg)
    (fn : TracedM ε α) (e : ε)
    (hthrow : fn (some (TracingContext.mergeCtx (s.getD {}) ctx))
      = Except.error e) :
    TracingContext.withTraceContext ctx fn s = Except.error e
    ∧ tryCatchT (bindT (TracingContext.withTraceContext ctx fn)
          (fun _ => TracingContext.getStore))
        (fun _ => TracingContext.getStore) s = Except.ok s := by
  have h1 : TracingContext.withTraceContext ctx fn s = Except.error e :=
    hthrow
  refine ⟨h1, ?_⟩
  simp [tryCatchT, bindT, h1, TracingContext.getStore]

/-- C8 witness: a callback that throws `"boom"` under an absent prior
store. -/
theorem c8_error_propagation_witness :
    TracingContext.withTraceContext { traceId := "t" }
        (fun _ => (Except.error "boom" : Except String Unit)) none
      = Except.error "boom"
    ∧ tryCatchT (bindT (TracingContext.withTraceContext { traceId := "t" }
          (fun _ => (Except.error "boom" : Except String Unit)))
          (fun _ => TracingContext.getStore))
        (fun _ => TracingContext.getStore) none = Except.ok none :=
  c8_error_propagation String Unit none { traceId := "t" }
    (fun _ => Except.error "boom") "boom" rfl

/-- C9: `tracedSqsHandler` returns, in order, exactly the message ids of
the records whose own handler run failed — every record is processed in
its own scope regardless of its siblings' outcomes, and the list is
empty exactly when every record succeeds. -/
theorem c9_batch_partial_failure (ε α : Type) (w : World)
    (extract : SQSRecord → Option String)
    (handler : SQSRecord → TracedM ε α) (s : Option Store)
    (event : SQSEvent) :
    (SqsHandler.tracedSqsHandler w extract handler s event).batchItemFailures
      = (event.Records.filter
          (fun r => SqsHandler.recordFails w extract handler s r)).map
          (fun r => r.messageId) := by
  obtain ⟨l⟩ := event
  show SqsHandler.runRecords w extract handler s l = _
  induction l with
  | nil => rfl
  | cons r rest ih =>
    cases hpr : SqsHandler.processRecord w extract handler s r with
    | ok a =>
      have hf : SqsHandler.recordFails w extract handler s r = false := by
        simp [SqsHandler.recordFails, hpr]
      simp [SqsHandler.runRecords, hpr, List.filter_cons, hf, ih]
    | error e =>
      have hf : SqsHandler.recordFails w extract handler s r = true := by
        simp [SqsHandler.recordFails, hpr]
      simp [SqsHandler.runRecords, hpr, List.filter_cons, hf, ih]

/-- C10: with a parent store active, the child scope of
`withTraceContext` observes the parent store merged with the new
context: the new context's fields win (its `traceId` always, and any
explicitly present auxiliary field), while auxiliary fields absent from
the new context are inherited from the parent rather than dropped. -/
theorem c10_merge_inherits_parent (ε : Type) (parent : Store)
    (ctx : CtxArg) :
    TracingContext.withTraceContext (ε := ε) ctx TracingContext.getStore
        (some parent)
      = Except.ok (some (TracingContext.mergeCtx parent ctx))
    ∧ (TracingContext.mergeCtx parent ctx).traceId = some ctx.traceId
    ∧ (ctx.spanId = none →
        (TracingContext.mergeCtx parent ctx).spanId = parent.spanId)
    ∧ (ctx.xrayEnv = none →
        (TracingContext.mergeCtx parent ctx).xrayEnv = parent.xrayEnv)
    ∧ (∀ v, ctx.spanId = some v →
        (TracingContext.mergeCtx parent ctx).spanId = v)
    ∧ (∀ v, ctx.xrayEnv = some v →
        (TracingContext.mergeCtx parent ctx).xrayEnv = v) := by
  refine ⟨rfl, rfl, ?_, ?_, ?_, ?_⟩
  · intro h
    simp [TracingContext.mergeCtx, h]
  · intro h
    simp [TracingContext.mergeCtx, h]
  · intro v h
    simp [TracingContext.mergeCtx, h]
  · intro v h
    simp [TracingContext.mergeCtx, h]

/-- C10 witness: a `{ traceId }`-only context (as the SQS wrapper
passes) inherits the parent's `spanId` and `xrayEnv`. -/
theorem c10_merge_inherits_parent_witness :
    TracingContext.withTraceContext (ε := String) { traceId := "c" }
        TracingContext.getStore
        (some { traceId := some "p", spanId := some "sp",
                xrayEnv := some "xe" })
      = Except.ok (some { traceId := some "c", spanId := some "sp",
                          xrayEnv := some "xe" })
    ∧ (TracingContext.mergeCtx
        { traceId := some "p", spanId := some "sp", xrayEnv := some "xe" }
        { traceId := "c" }).spanId = some "sp" := by
  have h := c10_merge_inherits_parent String
    { traceId := some "p", spanId := some "sp", xrayEnv := some "xe" }
    { traceId := "c" }
  exact ⟨h.1, h.2.2.1 rfl⟩

end Trace
